import Mathlib

/-!
Verification development for the mqtt-iot backend (src/backend/server.js,
src/sql/init.sql).  The message-ingestion pipeline is embedded shallowly:
JavaScript values appearing in payloads are modelled by an inductive `Json`
type (`parsed` fields carry the outcome of JSON.parse), machine numbers by
rationals extended with NaN and the infinities, and the side effects of the
MQTT message handler (console logging, MQTT publishes, Socket.IO emits, image
file writes, database writes) by an explicit effect list and a state
transformer.  Every definition is translated from the JavaScript source;
comments cite the server.js lines they embed.
-/

namespace MqttIot

/-- A JSON value as produced by JavaScript JSON.parse. -/
inductive Json where
  | null : Json
  | bool : Bool → Json
  | num : ℚ → Json
  | str : String → Json
  | arr : List Json → Json
  | obj : List (String × Json) → Json

/-- A JavaScript number: JSON numbers are rationals, and parseFloat can also
produce NaN or the infinities. -/
inductive JsNum where
  | num : ℚ → JsNum
  | nan : JsNum
  | inf : JsNum
  | negInf : JsNum
  deriving DecidableEq, Repr

/-- Property access `j.k` in JavaScript: a field of an object, undefined
(modelled as `none`) otherwise. -/
def Json.getField : Json → String → Option Json
  | .obj fields, k => (fields.find? (fun p => p.fst == k)).map Prod.snd
  | _, _ => none

/-- JavaScript truthiness of a value: false, 0, the empty string and null are
falsy; arrays and objects are always truthy. -/
def Json.truthy : Json → Bool
  | .null => false
  | .bool b => b
  | .num q => q != 0
  | .str s => s != ""
  | .arr _ => true
  | .obj _ => true

/-- JavaScript truthiness of a possibly-undefined value (undefined is falsy). -/
def jsTruthy (v : Option Json) : Bool :=
  match v with
  | none => false
  | some j => j.truthy

/-- Decimal rendering of a rational, standing in for JavaScript number
formatting.  No claim in this development depends on the exact digits
produced; the function is only needed to make string coercion total. -/
def ratToJsString (q : ℚ) : String := toString q

mutual

/-- JavaScript String() coercion: strings are returned as-is, arrays join
their coerced elements with commas, plain objects render as
"[object Object]". -/
def Json.toJsString : Json → String
  | .null => "null"
  | .bool true => "true"
  | .bool false => "false"
  | .num q => ratToJsString q
  | .str s => s
  | .arr xs => jsonListToJsString xs
  | .obj _ => "[object Object]"

/-- Comma-join of coerced array elements, as Array.prototype.toString does. -/
def jsonListToJsString : List Json → String
  | [] => ""
  | [x] => x.toJsString
  | x :: y :: xs => x.toJsString ++ "," ++ jsonListToJsString (y :: xs)

end

/-- Numeric value of a list of decimal digit characters. -/
def digitsVal (ds : List Char) : ℕ :=
  ds.foldl (fun a c => 10 * a + (c.toNat - Char.toNat '0')) 0

/-- Whitespace characters skipped by parseFloat. -/
def isJsWs (c : Char) : Bool :=
  c = ' ' || c = '\t' || c = '\n' || c = '\r'

/-- JavaScript parseFloat on a string: skip leading whitespace, optional sign,
then the longest prefix shaped like digits, an optional fraction and an
optional decimal exponent; Infinity is recognised; if no digits are found the
result is NaN. -/
def jsParseFloat (s : String) : JsNum :=
  let cs0 := s.data.dropWhile isJsWs
  let neg := match cs0 with
    | '-' :: _ => true
    | _ => false
  let cs := match cs0 with
    | '-' :: r => r
    | '+' :: r => r
    | _ => cs0
  if cs.take 8 = "Infinity".data then (if neg then .negInf else .inf)
  else
    let ip := cs.takeWhile Char.isDigit
    let rest := cs.drop ip.length
    let fp := match rest with
      | '.' :: r => r.takeWhile Char.isDigit
      | _ => []
    let rest2 := match rest with
      | '.' :: r => r.drop fp.length
      | _ => rest
    if ip.isEmpty && fp.isEmpty then .nan
    else
      let mant : ℚ := (digitsVal ip : ℚ) + (digitsVal fp : ℚ) / (10 : ℚ) ^ fp.length
      let expo : ℤ := match rest2 with
        | e :: r =>
          if e = 'e' || e = 'E' then
            let eneg := match r with
              | '-' :: _ => true
              | _ => false
            let r2 := match r with
              | '-' :: rr => rr
              | '+' :: rr => rr
              | _ => r
            let eds := r2.takeWhile Char.isDigit
            if eds.isEmpty then 0
            else if eneg then -(digitsVal eds : ℤ) else (digitsVal eds : ℤ)
          else 0
        | [] => 0
      let q := mant * (10 : ℚ) ^ expo
      .num (if neg then -q else q)

/-- The coercion `typeof value === "number" ? value : parseFloat(value)` used
at server.js:431 and server.js:442. -/
def coerceNumber (v : Json) : JsNum :=
  match v with
  | .num q => .num q
  | other => jsParseFloat other.toJsString

/-- JavaScript property access `x.length` as used for `data.value.length` at
server.js:451: the length of an array or string, undefined otherwise. -/
def jsLength (v : Json) : Option ℕ :=
  match v with
  | .arr xs => some xs.length
  | .str s => some s.length
  | _ => none

/-- MAC canonicalization, server.js:124: `macAddress.replace(/:/g, "_")`
replaces every colon by an underscore and touches nothing else. -/
def normalizeMac (s : String) : String :=
  String.mk (s.data.map (fun c => if c = ':' then '_' else c))

/-- An in-memory device entry of a user (server.js devices array elements,
objects with macAddress and name). -/
structure Device where
  macAddress : String
  name : String
  deriving DecidableEq, Repr

/-- An in-memory user as held in the users map (uuid, username and the list
of device objects). -/
structure User where
  uuid : String
  username : String
  devices : List Device
  deriving DecidableEq, Repr

/-- A row of the devices table (init.sql:82).  The INSERT at server.js:238
names no `active` column, so the schema default TRUE applies. -/
structure DeviceRow where
  mac_address : String
  user_uuid : String
  name : String
  active : Bool
  deriving DecidableEq, Repr

/-- The timestamp stored with a telemetry row: either the SQL NOW() at write
time (single readings, server.js:446) or the JavaScript Date built from a
batch entry's own first element (server.js:432). -/
inductive RowTime where
  | dbNow : ℕ → RowTime
  | fromJson : Json → RowTime

/-- A row of the telemetry table (init.sql:92).  The `message` field models
the JSON.stringify text of the stored value by carrying the value itself. -/
structure TelemetryRow where
  user_uuid : String
  device_mac_address : String
  device_name : String
  sensor_name : String
  message : Json
  value : JsNum
  unit : Option Json
  timestamp : RowTime
  message_id : Option Json

/-- A row of the alarms table (init.sql:107).  Ids model the SERIAL column;
acknowledged_at is NULL until the alarm is acknowledged. -/
structure AlarmRow where
  id : ℕ
  user_uuid : String
  device_mac_address : String
  device_name : String
  severity : String
  message : String
  acknowledged : Bool
  acknowledged_at : Option ℕ
  timestamp : ℕ
  deriving DecidableEq, Repr

/-- A row of the images table (init.sql:122) as written by server.js:510:
only the file pointer, size and metadata are stored, never the bytes. -/
structure ImageRow where
  user_uuid : String
  device_mac_address : String
  device_name : String
  image_id : String
  file_path : String
  file_size : ℕ
  metadata : Json
  timestamp : ℕ
  message_id : Option Json

/-- The PostgreSQL state the backend writes to. -/
structure Db where
  devices : List DeviceRow
  telemetry : List TelemetryRow
  alarms : List AlarmRow
  images : List ImageRow

/-- The whole backend state: the in-memory users map (association list in
insertion order, as a JavaScript Map iterates) plus the database. -/
structure ServerState where
  users : List User
  db : Db

/-- Payloads the backend publishes over MQTT: registration responses
(server.js:157 and friends) and acknowledgments (server.js:308, 327).  Both
also carry a timestamp field in the JSON. -/
inductive PubPayload where
  | registerResponse (name mac status : String) (error : Option String) (timestamp : ℕ)
  | ack (messageId : Json) (status : String) (recordCount : Option ℕ)
      (error : Option String) (timestamp : ℕ)

/-- Observable side effects of handling one bus message.  Socket.IO emits
carry the room (tenant uuid), the event name, and the device attribution
fields present in every emitted payload. -/
inductive Effect where
  | logInfo (line : String)
  | logWarn (line : String)
  | logError (line : String)
  | mqttPublish (topic : String) (payload : PubPayload)
  | socketEmit (room event mac deviceName : String)
  | writeImageFile (filename : String) (base64Source : String)

/-- An inbound bus message: the topic, the raw payload text, and the outcome
of JavaScript JSON.parse on that text (none when parsing throws).  The parse
result is carried explicitly instead of re-implementing a JSON parser. -/
structure BusMessage where
  topic : String
  raw : String
  parsed : Option Json

/-- Result of running the MQTT message handler on one message: the new state,
the effects in order, and the message of an uncaught exception when the async
handler threw (Node surfaces it as an unhandled promise rejection and nothing
further happens). -/
structure HandlerResult where
  state : ServerState
  effects : List Effect
  uncaught : Option String

/-- users.get(uuid) on the in-memory map. -/
def findUser (users : List User) (uuid : String) : Option User :=
  users.find? (fun u => u.uuid == uuid)

/-- Mutation of the single user object held in the map under a uuid: the
first (and, since the map is uuid-keyed, only) entry with that uuid is
replaced. -/
def updateUser (users : List User) (uuid : String) (f : User → User) : List User :=
  match users with
  | [] => []
  | u :: rest =>
    if u.uuid == uuid then f u :: rest else u :: updateUser rest uuid f

/-- Mutation of the device object found by devices.find (the first entry with
the given MAC). -/
def updateFirstDevice (ds : List Device) (mac : String) (f : Device → Device) : List Device :=
  match ds with
  | [] => []
  | d :: rest =>
    if d.macAddress == mac then f d :: rest else d :: updateFirstDevice rest mac f

/-- The scan at server.js:130: iterate the users map in insertion order and
return the first user owning a device with the given MAC, with that device. -/
def findDeviceAnyUser (users : List User) (mac : String) : Option (User × Device) :=
  match users with
  | [] => none
  | u :: rest =>
    match u.devices.find? (fun d => d.macAddress == mac) with
    | some d => some (u, d)
    | none => findDeviceAnyUser rest mac

/-- The register-response publish common to every registration outcome
(topic built at server.js:156). -/
def registerResponseEffect (userUuid name mac status : String)
    (error : Option String) (now : ℕ) : Effect :=
  .mqttPublish ("/" ++ userUuid ++ "/devices/register-response")
    (.registerResponse name mac status error now)

/-- The device self-registration branch, server.js:99-277, reached for topics
of exactly three segments ending in "devices".  Mirrors the source line by
line: unknown tenant warns and returns; non-JSON payloads become a name-only
object; server.js:115 reads the const `macAddress` (declared only on line
116) inside the name-default template, so a falsy name throws a
ReferenceError out of the async handler (temporal dead zone) before anything
else happens; then the missing-MAC check, the any-user scan, and the
reassign / rename / unchanged / create outcomes. -/
def handleRegistration (now : ℕ) (st : ServerState) (userUuid : String)
    (m : BusMessage) : HandlerResult :=
  match findUser st.users userUuid with
  | none =>
    ⟨st, [.logWarn ("[DEVICE-REGISTER] User not found: " ++ userUuid)], none⟩
  | some user =>
    let registrationData : Json :=
      match m.parsed with
      | some j => j
      | none => Json.obj [("name", Json.str m.raw)]
    if !jsTruthy (registrationData.getField "name") then
      -- the `||` right operand evaluates and hits the temporal dead zone
      ⟨st, [], some "ReferenceError: Cannot access macAddress before initialization"⟩
    else
      let deviceName := ((registrationData.getField "name").getD Json.null).toJsString
      if !jsTruthy (registrationData.getField "macAddress") then
        ⟨st, [.logWarn ("[DEVICE-REGISTER] MAC address required in message: " ++ m.raw)], none⟩
      else
        let deviceMacAddress :=
          normalizeMac ((registrationData.getField "macAddress").getD Json.null).toJsString
        match findDeviceAnyUser st.users deviceMacAddress with
        | some (existingUser, existingDevice) =>
          if existingUser.uuid != userUuid then
            -- reassign, server.js:139-185: a single UPDATE moves every row
            -- with this MAC to the requesting user; telemetry, alarm and
            -- image rows are not touched
            let db' := { st.db with
              devices := st.db.devices.map (fun r =>
                if r.mac_address == deviceMacAddress then
                  { r with user_uuid := userUuid, name := deviceName }
                else r) }
            let users' := updateUser st.users existingUser.uuid (fun u =>
              { u with devices := u.devices.filter (fun d => d.macAddress != deviceMacAddress) })
            let users'' := updateUser users' userUuid (fun u =>
              { u with devices := u.devices ++ [⟨deviceMacAddress, deviceName⟩] })
            ⟨⟨users'', db'⟩,
             [.logInfo ("[DEVICE-REGISTER] Reassigning device " ++ deviceMacAddress ++
                " from user " ++ existingUser.username ++ " to " ++ user.username),
              .logInfo ("[DEVICE-REGISTER] Reassigned device: " ++ deviceName ++ " (" ++
                deviceMacAddress ++ ") to user " ++ user.username ++
                ". Historical data remains with " ++ existingUser.username),
              registerResponseEffect userUuid deviceName deviceMacAddress "reassigned" none now,
              .socketEmit userUuid "device-registered" deviceMacAddress deviceName],
             none⟩
          else if existingDevice.name != deviceName then
            -- rename, server.js:188-215: UPDATE the name of every row with
            -- this MAC, update the in-memory device, publish name_updated
            let db' := { st.db with
              devices := st.db.devices.map (fun r =>
                if r.mac_address == deviceMacAddress then { r with name := deviceName } else r) }
            let users' := updateUser st.users userUuid (fun u =>
              { u with devices := (updateFirstDevice u.devices deviceMacAddress
                  (fun d => { d with name := deviceName })) })
            ⟨⟨users', db'⟩,
             [.logInfo ("[DEVICE-REGISTER] Updated device name: " ++ deviceName ++
                " (" ++ deviceMacAddress ++ ")"),
              registerResponseEffect userUuid deviceName deviceMacAddress "name_updated" none now],
             none⟩
          else
            -- unchanged, server.js:216-229: no write, publish unchanged
            ⟨st,
             [.logInfo ("[DEVICE-REGISTER] Device " ++ deviceName ++ " (" ++
                deviceMacAddress ++ ") already exists for user " ++ user.username ++
                " with same name - no changes needed"),
              registerResponseEffect userUuid deviceName deviceMacAddress "unchanged" none now],
             none⟩
        | none =>
          -- create, server.js:233-274: INSERT (active defaults to TRUE),
          -- push in memory, publish created, emit device-registered
          let db' := { st.db with
            devices := st.db.devices ++ [⟨deviceMacAddress, userUuid, deviceName, true⟩] }
          let users' := updateUser st.users userUuid (fun u =>
            { u with devices := u.devices ++ [⟨deviceMacAddress, deviceName⟩] })
          ⟨⟨users', db'⟩,
           [.logInfo ("[DEVICE-REGISTER] Created new device: " ++ deviceName ++ " (" ++
              deviceMacAddress ++ ") for user " ++ user.username),
            registerResponseEffect userUuid deviceName deviceMacAddress "created" none now,
            .socketEmit userUuid "device-registered" deviceMacAddress deviceName],
           none⟩

/-- The largest absolute time value of a JavaScript Date, in milliseconds
(ECMA-262: 8.64e15). -/
def maxJsTime : ℚ := 8640000000000000

/-- Reads exactly k decimal digits from the front of a character list. -/
def readFixedDigits (k : ℕ) (cs : List Char) : Option (ℕ × List Char) :=
  let ds := cs.take k
  if ds.length = k && ds.all Char.isDigit then some (digitsVal ds, cs.drop k)
  else none

/-- Recognizer for the trailing time-zone designator of the ECMAScript
date-time string format: empty (local time), Z, or a signed HH:mm offset. -/
def isIsoOffset (cs : List Char) : Bool :=
  match cs with
  | [] => true
  | ['Z'] => true
  | c :: r =>
    if c = '+' || c = '-' then
      match readFixedDigits 2 r with
      | some (oh, r2) =>
        if 23 < oh then false
        else
          match r2 with
          | ':' :: r3 =>
            match readFixedDigits 2 r3 with
            | some (om, r4) => decide (om ≤ 59) && r4.isEmpty
            | none => false
          | _ => false
      | none => false
    else false

/-- Recognizer for the time part of the ECMAScript date-time string format,
after the T separator: HH:mm, optional :ss, optional .sss, then an optional
time-zone designator. -/
def isIsoTimeTail (cs : List Char) : Bool :=
  match readFixedDigits 2 cs with
  | none => false
  | some (hh, r) =>
    if 23 < hh then false
    else
      match r with
      | ':' :: r2 =>
        match readFixedDigits 2 r2 with
        | none => false
        | some (mi, r3) =>
          if 59 < mi then false
          else
            match r3 with
            | ':' :: r4 =>
              match readFixedDigits 2 r4 with
              | none => false
              | some (ss, r5) =>
                if 59 < ss then false
                else
                  match r5 with
                  | '.' :: r6 =>
                    match readFixedDigits 3 r6 with
                    | none => false
                    | some (_, r7) => isIsoOffset r7
                  | r5x => isIsoOffset r5x
            | r3x => isIsoOffset r3x
      | _ => false

/-- Recognizer for the ECMAScript date-time string format (the simplified
ISO 8601 profile every engine must parse): YYYY, optionally -MM, optionally
-DD, optionally T followed by a time.  Deliberately conservative where the
standard leaves room: expanded years, hour 24, offsets without a colon and
days of month above 28 are rejected, so every accepted string is accepted by
the engine, while the converse does not hold (engines also take
implementation-defined legacy formats such as month-name dates).  No theorem
relies on a string this recognizer rejects being an invalid date. -/
def isIsoDateString (s : String) : Bool :=
  match readFixedDigits 4 s.data with
  | none => false
  | some (_, rest) =>
    match rest with
    | [] => true
    | 'T' :: r => isIsoTimeTail r
    | '-' :: r2 =>
      match readFixedDigits 2 r2 with
      | none => false
      | some (mo, r3) =>
        if mo < 1 || 12 < mo then false
        else
          match r3 with
          | [] => true
          | 'T' :: r => isIsoTimeTail r
          | '-' :: r4 =>
            match readFixedDigits 2 r4 with
            | none => false
            | some (d, r5) =>
              if d < 1 || 28 < d then false
              else
                match r5 with
                | [] => true
                | 'T' :: r6 => isIsoTimeTail r6
                | _ => false
          | _ => false
    | _ => false

/-- Whether `new Date(x)` at server.js:432 yields a valid Date.  Numbers are
time values, valid within the standard millisecond range; null and booleans
coerce to the numbers 0 and 0/1; everything else is coerced to a string (a
plain object to "[object Object]") and parsed, modelled by the conservative
ISO recognizer above. -/
def jsNewDateValid (j : Json) : Bool :=
  match j with
  | .num q => decide (-maxJsTime ≤ q) && decide (q ≤ maxJsTime)
  | .null => true
  | .bool _ => true
  | other => isIsoDateString other.toJsString

/-- Timestamps that no engine turns into a valid Date: plain objects (their
string form "[object Object]" is no date in any format) and numbers outside
the representable millisecond range.  Used to state the abort behaviour only
where it is certain, independent of implementation-defined string
parsing. -/
def certainlyInvalidDate (j : Json) : Bool :=
  match j with
  | .obj _ => true
  | .num q => decide (q < -maxJsTime) || decide (maxJsTime < q)
  | _ => false

/-- Model of the err.message surfaced when the timestamp literal serialized
from an Invalid Date is rejected by PostgreSQL; the exact text comes from
the driver and server, only its presence matters. -/
def pgTimestampError : String :=
  "invalid input syntax for type timestamp with time zone"

/-- Outcome of one iteration of the batch loop. -/
inductive BatchStep where
  | skip
  | insert (row : TelemetryRow)
  | fail (error : String)

/-- One iteration of the batch loop, server.js:427-438: entries that are not
arrays or have fewer than two elements are skipped (`continue`); otherwise
the first element is handed to `new Date` and the second becomes the
reading, coerced by parseFloat when it is not a number (elements beyond the
second are ignored by the destructuring).  When the Date is valid the
awaited INSERT succeeds and yields one row (the store is modelled as
accepting every well-formed write, as everywhere in this development); when
it is invalid the serialized timestamp literal is rejected by PostgreSQL and
the await throws. -/
def batchEntryStep (userUuid deviceMacAddress deviceName sensorName : String)
    (unit messageId : Option Json) (entry : Json) : BatchStep :=
  match entry with
  | .arr es =>
    if es.length < 2 then .skip
    else if jsNewDateValid (es.getD 0 Json.null) then
      .insert
        { user_uuid := userUuid
          device_mac_address := deviceMacAddress
          device_name := deviceName
          sensor_name := sensorName
          message := entry
          value := coerceNumber (es.getD 1 Json.null)
          unit := unit
          timestamp := .fromJson (es.getD 0 Json.null)
          message_id := messageId }
    else .fail pgTimestampError
  | _ => .skip

/-- The batch loop of storeTelemetry: each INSERT is awaited individually
(no transaction), so a failing entry aborts the loop while the rows already
written remain.  Returns the rows written and the aborting error, if any. -/
def runBatchLoop (userUuid deviceMacAddress deviceName sensorName : String)
    (unit messageId : Option Json) : List Json → List TelemetryRow × Option String
  | [] => ([], none)
  | entry :: rest =>
    match batchEntryStep userUuid deviceMacAddress deviceName sensorName unit messageId entry with
    | .skip => runBatchLoop userUuid deviceMacAddress deviceName sensorName unit messageId rest
    | .insert row =>
      let r := runBatchLoop userUuid deviceMacAddress deviceName sensorName unit messageId rest
      (row :: r.1, r.2)
    | .fail err => ([], some err)

/-- The value of `x || null` (server.js:420-422): the value itself when
truthy, SQL NULL otherwise. -/
def orNull (v : Option Json) : Option Json :=
  if jsTruthy v then v else none

/-- storeTelemetry, server.js:404-456, as the rows it actually wrote plus
either the result object `{success, messageId, recordCount}` or the thrown
err.message.  Each batch INSERT is awaited separately, so an aborting entry
leaves the earlier rows written.  The two console.error calls preceding the
validation throws are emitted by the dispatcher as the single failure log it
prints.  recordCount is `isBatch ? data.value.length : 1`, i.e. the full
array length including skipped entries (undefined when the batch value has
no length property). -/
def storeTelemetry (now : ℕ) (userUuid deviceMacAddress deviceName : String)
    (m : BusMessage) : List TelemetryRow × Except String (Option Json × Option ℕ) :=
  match m.parsed with
  | none => ([], .error "Telemetry must be valid JSON")
  | some data =>
    if !jsTruthy (data.getField "sensor") || (data.getField "value").isNone then
      ([], .error "Missing required fields: sensor and value")
    else
      let sensorName := ((data.getField "sensor").getD Json.null).toJsString
      let unit := orNull (data.getField "unit")
      let isBatch := jsTruthy (data.getField "isBatch")
      let messageId := orNull (data.getField "messageId")
      let value := (data.getField "value").getD Json.null
      match isBatch, value with
      | true, .arr entries =>
        match runBatchLoop userUuid deviceMacAddress deviceName sensorName unit messageId
            entries with
        | (rows, none) => (rows, .ok (messageId, some entries.length))
        | (rows, some err) => (rows, .error err)
      | _, _ =>
        ([{ user_uuid := userUuid
            device_mac_address := deviceMacAddress
            device_name := deviceName
            sensor_name := sensorName
            message := data
            value := coerceNumber value
            unit := unit
            timestamp := .dbNow now
            message_id := messageId }],
         .ok (messageId, if isBatch then jsLength value else some 1))

/-- The alarm row built at server.js:352-359 and stored by storeAlarm
(server.js:459-465): JSON parse failure falls back to severity info with the
raw text as message, and falsy severity or message fields take the same
defaults.  The id models the SERIAL column. -/
def mkAlarmRow (now : ℕ) (nextId : ℕ) (userUuid deviceMacAddress deviceName : String)
    (m : BusMessage) : AlarmRow :=
  let alarmData : Json :=
    match m.parsed with
    | some j => j
    | none => Json.obj [("severity", Json.str "info"), ("message", Json.str m.raw)]
  { id := nextId
    user_uuid := userUuid
    device_mac_address := deviceMacAddress
    device_name := deviceName
    severity :=
      if jsTruthy (alarmData.getField "severity") then
        ((alarmData.getField "severity").getD Json.null).toJsString
      else "info"
    message :=
      if jsTruthy (alarmData.getField "message") then
        ((alarmData.getField "message").getD Json.null).toJsString
      else m.raw
    acknowledged := false
    acknowledged_at := none
    timestamp := now }

/-- Base64 alphabet characters.  Node Buffer.from(s, "base64") never throws:
bytes outside the alphabet are ignored and the rest decoded leniently. -/
def isBase64Char (c : Char) : Bool :=
  c.isAlphanum || c = '+' || c = '/'

/-- Byte length of the lenient Node base64 decoding of a string (six bits per
accepted character).  No claim depends on the exact count, only on the
decoding being total. -/
def base64DecodedLength (s : String) : ℕ :=
  ((s.data.filter isBase64Char).length * 6) / 8

/-- handleImageMessage, server.js:477-521: JSON parse failure and a falsy
imageId or imageData are hard failures with no write; otherwise the file name
is built from tenant, device, image id and the write-time clock, the base64
payload is decoded (totally) and written, and a row holding only the pointer,
size and metadata is inserted.  Returns the row, the file-write effect, and
the result fields the dispatcher reads (imageId, messageId). -/
def handleImageMessage (now : ℕ) (userUuid deviceMacAddress deviceName : String)
    (m : BusMessage) : Except String (ImageRow × Effect × String × Option Json) :=
  match m.parsed with
  | none => .error "Image message must be valid JSON"
  | some data =>
    if !jsTruthy (data.getField "imageId") || !jsTruthy (data.getField "imageData") then
      .error "Missing required fields: imageId and imageData"
    else
      let imageId := ((data.getField "imageId").getD Json.null).toJsString
      let messageId := orNull (data.getField "messageId")
      let imageDataBase64 := ((data.getField "imageData").getD Json.null).toJsString
      let metadata :=
        if jsTruthy (data.getField "metadata") then (data.getField "metadata").getD Json.null
        else Json.obj []
      let extension :=
        if jsTruthy (metadata.getField "format") then
          ((metadata.getField "format").getD Json.null).toJsString
        else "png"
      let filename := userUuid ++ "_" ++ deviceMacAddress ++ "_" ++ imageId ++ "_" ++
        toString now ++ "." ++ extension
      let fileSize := base64DecodedLength imageDataBase64
      .ok
        ({ user_uuid := userUuid
           device_mac_address := deviceMacAddress
           device_name := deviceName
           image_id := imageId
           file_path := filename
           file_size := fileSize
           metadata := metadata
           timestamp := now
           message_id := messageId },
         .writeImageFile filename imageDataBase64, imageId, messageId)

/-- The commands topic acknowledgments are published to (server.js:307). -/
def ackTopic (userUuid deviceMacAddress : String) : String :=
  "/" ++ userUuid ++ "/devices/" ++ deviceMacAddress ++ "/commands"

/-- Split of a character list at a separator character, keeping empty
segments, as JavaScript String.prototype.split does for a one-character
separator. -/
def splitCharsOn (sep : Char) : List Char → List (List Char)
  | [] => [[]]
  | c :: rest =>
    let r := splitCharsOn sep rest
    if c = sep then [] :: r
    else
      match r with
      | g :: gs => (c :: g) :: gs
      | [] => [[c]]

/-- topic.split("/") at server.js:96. -/
def splitTopic (s : String) : List String :=
  (splitCharsOn '/' s.data).map String.mk

/-- The test `parts.length >= 5` of server.js:279, phrased structurally. -/
def hasAtLeastFive (l : List String) : Bool :=
  match l with
  | _ :: _ :: _ :: _ :: _ :: _ => true
  | _ => false

/-- The per-device part of the message handler, server.js:279-398, for a
topic already split as /{userUuid}/devices/{deviceMacAddress}/{messageType}:
silently ignored when the tenant is unknown; the device lookup falls back to
the name "Unknown"; telemetry, alarms and images dispatch as in the source,
and any other class falls through with no action.  In the images success
continuation the source (server.js:385) references `deviceId`, a variable
that does not exist in this handler since the rewrite to MAC-based topics;
evaluating it throws a ReferenceError inside the .then callback, which the
trailing .catch converts into an error log, so no image acknowledgment is
ever published. -/
def perDeviceDispatch (now : ℕ) (st : ServerState) (m : BusMessage)
    (userUuid deviceMacAddress messageType : String) : HandlerResult :=
  let arrivalLog := Effect.logInfo ("[MQTT] " ++ m.topic ++ ": " ++ m.raw)
  match findUser st.users userUuid with
    | none => ⟨st, [arrivalLog], none⟩
    | some user =>
      let deviceName :=
        match user.devices.find? (fun d => d.macAddress == deviceMacAddress) with
        | some d => d.name
        | none => "Unknown"
      if messageType == "telemetry" then
        match storeTelemetry now userUuid deviceMacAddress deviceName m with
        | (rows, .ok (messageId, recordCount)) =>
          let ackEffects :=
            match messageId with
            | some mid =>
              [Effect.mqttPublish (ackTopic userUuid deviceMacAddress)
                  (.ack mid "success" recordCount none now),
               Effect.logInfo "[ACK] Sent acknowledgment"]
            | none => []
          ⟨{ st with db := { st.db with telemetry := st.db.telemetry ++ rows } },
           arrivalLog ::
             Effect.logInfo ("[TELEMETRY] Stored reading(s) for " ++ deviceName) ::
             Effect.socketEmit userUuid "telemetry" deviceMacAddress deviceName ::
             ackEffects,
           none⟩
        | (rows, .error e) =>
          -- the rows inserted before the throw stay in the database: the
          -- batch loop runs its awaited INSERTs outside any transaction
          let ackEffects :=
            match m.parsed with
            | some data =>
              if jsTruthy (data.getField "messageId") then
                [Effect.mqttPublish (ackTopic userUuid deviceMacAddress)
                    (.ack ((data.getField "messageId").getD Json.null) "error" none (some e) now)]
              else []
            | none => []
          ⟨{ st with db := { st.db with telemetry := st.db.telemetry ++ rows } },
           arrivalLog :: Effect.logError ("[DB] Failed to store telemetry: " ++ e) ::
             ackEffects, none⟩
      else if messageType == "alarms" then
        let row := mkAlarmRow now (st.db.alarms.length + 1) userUuid deviceMacAddress deviceName m
        ⟨{ st with db := { st.db with alarms := st.db.alarms ++ [row] } },
         [arrivalLog, Effect.socketEmit userUuid "alarm" deviceMacAddress deviceName],
         none⟩
      else if messageType == "images" then
        match handleImageMessage now userUuid deviceMacAddress deviceName m with
        | .ok (row, writeEff, imageId, messageId) =>
          let ackEffects :=
            match messageId with
            | some _ =>
              -- server.js:385 evaluates the unbound `deviceId`
              [Effect.logError
                "[IMAGE] Failed to store image: ReferenceError: deviceId is not defined"]
            | none => []
          ⟨{ st with db := { st.db with images := st.db.images ++ [row] } },
           arrivalLog :: writeEff ::
             Effect.logInfo ("[IMAGE] Stored image from " ++ deviceName ++ ": " ++ imageId) ::
             Effect.socketEmit userUuid "image" deviceMacAddress deviceName ::
             ackEffects,
           none⟩
        | .error e =>
          ⟨st, [arrivalLog, Effect.logError ("[IMAGE] Failed to store image: " ++ e)], none⟩
      else ⟨st, [arrivalLog], none⟩

/-- The whole mqttClient.on("message") handler, server.js:91-399.  The first
effect is always the arrival log; topics of exactly three segments whose
third segment is "devices" go to registration; topics of five or more
segments whose third segment is "devices" are per-device messages; everything
else falls through with no action beyond the arrival log. -/
def handleMessage (now : ℕ) (st : ServerState) (m : BusMessage) : HandlerResult :=
  let arrivalLog := Effect.logInfo ("[MQTT] " ++ m.topic ++ ": " ++ m.raw)
  let parts := splitTopic m.topic
  if parts.length == 3 && parts.getD 2 "" == "devices" then
    let r := handleRegistration now st (parts.getD 1 "") m
    ⟨r.state, arrivalLog :: r.effects, r.uncaught⟩
  else if hasAtLeastFive parts && parts.getD 2 "" == "devices" then
    perDeviceDispatch now st m (parts.getD 1 "") (parts.getD 3 "") (parts.getD 4 "")
  else ⟨st, [arrivalLog], none⟩

/-- The alarm acknowledgment endpoint, server.js:813-826: an unconditional
UPDATE setting acknowledged and refreshing acknowledged_at to NOW() on every
row with the given id, answering status ok whether or not a row matched. -/
def acknowledgeAlarm (now : ℕ) (db : Db) (alarmId : ℕ) : Db × String :=
  ({ db with alarms := db.alarms.map (fun a =>
      if a.id == alarmId then { a with acknowledged := true, acknowledged_at := some now }
      else a) },
   "ok")

/-- Classifier for MQTT publish effects. -/
def Effect.isMqttPublish : Effect → Bool
  | .mqttPublish _ _ => true
  | _ => false

/-- Classifier for Socket.IO emit effects. -/
def Effect.isSocketEmit : Effect → Bool
  | .socketEmit _ _ _ _ => true
  | _ => false

/-- Classifier for file-write effects. -/
def Effect.isWriteImageFile : Effect → Bool
  | .writeImageFile _ _ => true
  | _ => false

/-- Classifier for console.warn effects. -/
def Effect.isLogWarn : Effect → Bool
  | .logWarn _ => true
  | _ => false

/-- Classifier for effects that only write to the console. -/
def Effect.isLogOnly : Effect → Bool
  | .logInfo _ => true
  | .logWarn _ => true
  | .logError _ => true
  | _ => false

/-- The statuses of the register-response messages published in a run, in
order. -/
def publishedStatuses (effs : List Effect) : List String :=
  effs.filterMap (fun e =>
    match e with
    | .mqttPublish _ (.registerResponse _ _ status _ _) => some status
    | _ => none)

/-- The acknowledgment payloads published in a run, in order. -/
def publishedAcks (effs : List Effect) : List PubPayload :=
  effs.filterMap (fun e =>
    match e with
    | .mqttPublish _ (.ack mid status rc err ts) => some (.ack mid status rc err ts)
    | _ => none)

/-- Whether a tenant uuid names a loaded user. -/
def knownTenant (users : List User) (uuid : String) : Bool :=
  (findUser users uuid).isSome

/-- A malformed bus topic in the sense of the router contract: the wrong
shape (too few segments or a third segment other than "devices"), an unknown
tenant, or a per-device class outside telemetry, alarms, images and
commands. -/
def topicMalformed (users : List User) (topic : String) : Bool :=
  let parts := splitTopic topic
  if parts.length == 3 && parts.getD 2 "" == "devices" then
    !knownTenant users (parts.getD 1 "")
  else if hasAtLeastFive parts && parts.getD 2 "" == "devices" then
    !knownTenant users (parts.getD 1 "") ||
      !(parts.getD 4 "" == "telemetry" || parts.getD 4 "" == "alarms" ||
        parts.getD 4 "" == "images" || parts.getD 4 "" == "commands")
  else true

/-- The keep-condition of the batch loop, server.js:428: an entry survives
the `continue` exactly when it is an array of at least two elements. -/
def keptBatchEntry (e : Json) : Bool :=
  match e with
  | .arr es => !(es.length < 2)
  | _ => false

/-- Colon and underscore, the two separator glyphs related by the MAC
canonicalization. -/
def sepChar (c : Char) : Bool :=
  c = ':' || c = '_'

/-- Fixture: tenant alice owns one registered device with one stored
telemetry row; tenant bob owns nothing. -/
def sampleDb : Db :=
  ⟨[⟨"AA_BB_CC_DD_EE_FF", "tenantA", "Device-1", true⟩],
   [⟨"tenantA", "AA_BB_CC_DD_EE_FF", "Device-1", "temp", Json.null, .num 21, none, .dbNow 0, none⟩],
   [], []⟩

/-- Fixture: the in-memory view matching sampleDb. -/
def sampleState : ServerState :=
  ⟨[⟨"tenantA", "alice", [⟨"AA_BB_CC_DD_EE_FF", "Device-1"⟩]⟩,
    ⟨"tenantB", "bob", []⟩],
   sampleDb⟩

/-- Fixture: a single tenant with no devices and an empty database. -/
def freshState : ServerState :=
  ⟨[⟨"tenantC", "carol", []⟩], ⟨[], [], [], []⟩⟩

/-- Fixture: one unacknowledged alarm with id 1. -/
def alarmDb : Db :=
  ⟨[], [], [⟨1, "tenantA", "AA_BB_CC_DD_EE_FF", "Device-1", "critical", "overheat", false, none, 5⟩], []⟩

/-- Reduction of the handler on a registration-shaped topic split. -/
theorem handleMessage_registration_topic (now : ℕ) (st : ServerState) (m : BusMessage)
    (p0 uuid : String) (hsplit : splitTopic m.topic = [p0, uuid, "devices"]) :
    handleMessage now st m =
      ⟨(handleRegistration now st uuid m).state,
       Effect.logInfo ("[MQTT] " ++ m.topic ++ ": " ++ m.raw) ::
         (handleRegistration now st uuid m).effects,
       (handleRegistration now st uuid m).uncaught⟩ := by
  unfold handleMessage
  rw [hsplit]
  rfl

/-- Reduction of the handler on a per-device-shaped topic split. -/
theorem handleMessage_per_device (now : ℕ) (st : ServerState) (m : BusMessage)
    (p0 uuid mac mtype : String) (rest : List String)
    (hsplit : splitTopic m.topic = p0 :: uuid :: "devices" :: mac :: mtype :: rest) :
    handleMessage now st m = perDeviceDispatch now st m uuid mac mtype := by
  unfold handleMessage
  rw [hsplit]
  rfl

/-- When no user owns a device with the given MAC the any-user scan comes up
empty. -/
theorem findDeviceAnyUser_eq_none (users : List User) (mac : String)
    (h : ∀ v ∈ users, ∀ d ∈ v.devices, d.macAddress ≠ mac) :
    findDeviceAnyUser users mac = none := by
  induction users with
  | nil => rfl
  | cons v vs ih =>
    unfold findDeviceAnyUser
    have hfind : v.devices.find? (fun d => d.macAddress == mac) = none := by
      apply List.find?_eq_none.mpr
      intro d hd
      simp [h v (List.mem_cons_self _ _) d hd]
    rw [hfind]
    exact ih (fun w hw d hd => h w (List.mem_cons_of_mem _ hw) d hd)

/-- Updating the map entry for a uuid through a uuid-preserving function
commutes with the lookup of that uuid. -/
theorem findUser_updateUser (users : List User) (uuid : String) (f : User → User)
    (hf : ∀ v, (f v).uuid = v.uuid) :
    findUser (updateUser users uuid f) uuid = (findUser users uuid).map f := by
  induction users with
  | nil => rfl
  | cons v vs ih =>
    unfold updateUser
    by_cases hv : (v.uuid == uuid) = true
    · rw [if_pos hv]
      unfold findUser
      have hfv : ((f v).uuid == uuid) = true := by rw [hf v]; exact hv
      simp only [List.find?, hfv, hv]
      rfl
    · rw [if_neg hv]
      have hv' : (v.uuid == uuid) = false := by simpa using hv
      unfold findUser
      simp only [List.find?, hv']
      exact ih

/-- After appending a device with a MAC nobody owned to the map entry of one
user, the any-user scan for that MAC finds exactly that user and device. -/
theorem findDeviceAnyUser_updateUser_append (users : List User) (uuid : String)
    (u : User) (nd : Device)
    (hu : findUser users uuid = some u)
    (hfresh : ∀ v ∈ users, ∀ d ∈ v.devices, d.macAddress ≠ nd.macAddress) :
    findDeviceAnyUser
        (updateUser users uuid (fun v => { v with devices := v.devices ++ [nd] }))
        nd.macAddress
      = some ({ u with devices := u.devices ++ [nd] }, nd) := by
  induction users with
  | nil => simp [findUser] at hu
  | cons v vs ih =>
    by_cases hv : (v.uuid == uuid) = true
    · have huv : v = u := by
        unfold findUser at hu
        simp only [List.find?, hv] at hu
        exact Option.some.inj hu
      subst huv
      unfold updateUser
      rw [if_pos hv]
      unfold findDeviceAnyUser
      have h1 : (v.devices ++ [nd]).find? (fun d => d.macAddress == nd.macAddress)
          = some nd := by
        rw [List.find?_append]
        have h2 : v.devices.find? (fun d => d.macAddress == nd.macAddress) = none := by
          apply List.find?_eq_none.mpr
          intro d hd
          simp [hfresh v (List.mem_cons_self _ _) d hd]
        rw [h2]
        simp [List.find?]
      rw [h1]
    · unfold updateUser
      rw [if_neg hv]
      unfold findDeviceAnyUser
      have h2 : v.devices.find? (fun d => d.macAddress == nd.macAddress) = none := by
        apply List.find?_eq_none.mpr
        intro d hd
        simp [hfresh v (List.mem_cons_self _ _) d hd]
      rw [h2]
      have hv' : (v.uuid == uuid) = false := by simpa using hv
      have hu' : findUser vs uuid = some u := by
        unfold findUser at hu
        simp only [List.find?, hv'] at hu
        exact hu
      exact ih hu' (fun w hw d hd => hfresh w (List.mem_cons_of_mem _ hw) d hd)

/-- The uuid of the user found by findUser is the uuid looked up. -/
theorem findUser_uuid (users : List User) (uuid : String) (u : User)
    (hu : findUser users uuid = some u) : u.uuid = uuid := by
  have := List.find?_some hu
  simpa using this

/-- C10: a telemetry or alarm message arriving on a known tenant's topic
with a MAC that is not in that tenant's device list is not dropped: it is
persisted attributed to that tenant and MAC with the device name recorded as
"Unknown", and fanned out to that tenant's room with the same attribution. -/
theorem c10_unknown_device_still_ingested
    (now : ℕ) (st : ServerState) (mT mA : BusMessage) (p0 uuid mac : String) (u : User)
    (restT restA : List String) (data : Json)
    (hsplitT : splitTopic mT.topic = p0 :: uuid :: "devices" :: mac :: "telemetry" :: restT)
    (hsplitA : splitTopic mA.topic = p0 :: uuid :: "devices" :: mac :: "alarms" :: restA)
    (hfu : findUser st.users uuid = some u)
    (hdev : u.devices.find? (fun d => d.macAddress == mac) = none)
    (hparsed : mT.parsed = some data)
    (hsensor : jsTruthy (data.getField "sensor") = true)
    (hvalue : (data.getField "value").isSome = true)
    (hsingle : jsTruthy (data.getField "isBatch") = false) :
    ((handleMessage now st mT).state.db.telemetry.map
        (fun r => (r.user_uuid, r.device_mac_address, r.device_name))
      = st.db.telemetry.map (fun r => (r.user_uuid, r.device_mac_address, r.device_name))
        ++ [(uuid, mac, "Unknown")]) ∧
    Effect.socketEmit uuid "telemetry" mac "Unknown" ∈ (handleMessage now st mT).effects ∧
    ((handleMessage now st mA).state.db.alarms.map
        (fun r => (r.user_uuid, r.device_mac_address, r.device_name))
      = st.db.alarms.map (fun r => (r.user_uuid, r.device_mac_address, r.device_name))
        ++ [(uuid, mac, "Unknown")]) ∧
    Effect.socketEmit uuid "alarm" mac "Unknown" ∈ (handleMessage now st mA).effects := by
  have hst : storeTelemetry now uuid mac "Unknown" mT =
      ([{ user_uuid := uuid, device_mac_address := mac, device_name := "Unknown",
          sensor_name := ((data.getField "sensor").getD Json.null).toJsString,
          message := data,
          value := coerceNumber ((data.getField "value").getD Json.null),
          unit := orNull (data.getField "unit"),
          timestamp := .dbNow now,
          message_id := orNull (data.getField "messageId") }],
       .ok (orNull (data.getField "messageId"), some 1)) := by
    unfold storeTelemetry
    rw [hparsed]
    have hvn : (data.getField "value").isNone = false := by
      rcases Option.isSome_iff_exists.mp hvalue with ⟨v, hv⟩
      rw [hv]
      rfl
    simp only [hsensor, hvn, Bool.not_true, Bool.or_false, Bool.false_eq_true, if_false,
      hsingle]
  rw [handleMessage_per_device now st mT p0 uuid mac "telemetry" restT hsplitT,
    handleMessage_per_device now st mA p0 uuid mac "alarms" restA hsplitA]
  unfold perDeviceDispatch
  rw [hfu]
  simp only [hdev, hst, beq_self_eq_true, if_true]
  refine ⟨?_, ?_, ?_, ?_⟩
  · simp
  · cases horn : orNull (data.getField "messageId") <;> simp [horn]
  · simp [mkAlarmRow]
  · simp

/-- C10, witness: the theorem applied to the alice fixture with the
unregistered MAC ZZ, one valid telemetry message and one raw-text alarm. -/
theorem c10_unknown_device_still_ingested_witness :
    ((handleMessage 3 sampleState
        ⟨"/tenantA/devices/ZZ/telemetry", "t",
         some (.obj [("sensor", .str "temp"), ("value", .num 5)])⟩).state.db.telemetry.map
        (fun r => (r.user_uuid, r.device_mac_address, r.device_name))
      = sampleState.db.telemetry.map
          (fun r => (r.user_uuid, r.device_mac_address, r.device_name))
        ++ [("tenantA", "ZZ", "Unknown")]) ∧
    Effect.socketEmit "tenantA" "telemetry" "ZZ" "Unknown" ∈
      (handleMessage 3 sampleState
        ⟨"/tenantA/devices/ZZ/telemetry", "t",
         some (.obj [("sensor", .str "temp"), ("value", .num 5)])⟩).effects ∧
    ((handleMessage 3 sampleState
        ⟨"/tenantA/devices/ZZ/alarms", "hot", none⟩).state.db.alarms.map
        (fun r => (r.user_uuid, r.device_mac_address, r.device_name))
      = sampleState.db.alarms.map
          (fun r => (r.user_uuid, r.device_mac_address, r.device_name))
        ++ [("tenantA", "ZZ", "Unknown")]) ∧
    Effect.socketEmit "tenantA" "alarm" "ZZ" "Unknown" ∈
      (handleMessage 3 sampleState ⟨"/tenantA/devices/ZZ/alarms", "hot", none⟩).effects :=
  c10_unknown_device_still_ingested 3 sampleState
    ⟨"/tenantA/devices/ZZ/telemetry", "t",
     some (.obj [("sensor", .str "temp"), ("value", .num 5)])⟩
    ⟨"/tenantA/devices/ZZ/alarms", "hot", none⟩
    "" "tenantA" "ZZ" ⟨"tenantA", "alice", [⟨"AA_BB_CC_DD_EE_FF", "Device-1"⟩]⟩ [] []
    (.obj [("sensor", .str "temp"), ("value", .num 5)])
    rfl rfl rfl rfl rfl rfl rfl rfl

/-- C5, counterexample: the claim says representations differing only in
separator convention, such as colons versus dashes, normalize identically;
the code only rewrites colons, so the dash form is left untouched and the
two canonical strings differ. -/
theorem c5_dash_form_not_identified :
    normalizeMac "AA:BB:CC:DD:EE:FF" = "AA_BB_CC_DD_EE_FF" ∧
    normalizeMac "AA-BB-CC-DD-EE-FF" = "AA-BB-CC-DD-EE-FF" ∧
    normalizeMac "AA:BB:CC:DD:EE:FF" ≠ normalizeMac "AA-BB-CC-DD-EE-FF" := by
  refine ⟨rfl, rfl, ?_⟩
  decide

/-- C5, amended: canonicalization identifies exactly the colon and
underscore conventions: two inputs of the same length whose characters agree
except that colons may stand for underscores (and vice versa) normalize to
the same canonical string. -/
theorem c5_colon_underscore_identified (l₁ l₂ : List Char)
    (hlen : l₁.length = l₂.length)
    (hpt : ((l₁.zip l₂).all fun p => p.1 = p.2 || (sepChar p.1 && sepChar p.2)) = true) :
    normalizeMac (String.mk l₁) = normalizeMac (String.mk l₂) := by
  unfold normalizeMac
  refine congrArg String.mk ?_
  induction l₁ generalizing l₂ with
  | nil => cases l₂ with
    | nil => rfl
    | cons b bs => simp at hlen
  | cons a as ih =>
    cases l₂ with
    | nil => simp at hlen
    | cons b bs =>
      simp only [List.zip_cons_cons, List.all_cons, Bool.and_eq_true] at hpt
      simp only [List.map_cons, List.cons.injEq]
      refine ⟨?_, ih bs (by simpa using hlen) hpt.2⟩
      rcases Bool.or_eq_true _ _ |>.mp hpt.1 with h | h
      · rw [decide_eq_true_eq.mp h]
      · rcases Bool.and_eq_true _ _ |>.mp h with ⟨ha, hb⟩
        have sa : a = ':' ∨ a = '_' := by
          rcases Bool.or_eq_true _ _ |>.mp ha with h1 | h1
          · exact Or.inl (decide_eq_true_eq.mp h1)
          · exact Or.inr (decide_eq_true_eq.mp h1)
        have sb : b = ':' ∨ b = '_' := by
          rcases Bool.or_eq_true _ _ |>.mp hb with h1 | h1
          · exact Or.inl (decide_eq_true_eq.mp h1)
          · exact Or.inr (decide_eq_true_eq.mp h1)
        rcases sa with h1 | h1 <;> rcases sb with h2 | h2 <;> subst h1 <;> subst h2 <;> rfl

/-- C5, witness: the colon form and the underscore form of one MAC address
normalize to the same canonical string. -/
theorem c5_colon_underscore_identified_witness :
    normalizeMac (String.mk "AA:BB:CC".data) = normalizeMac (String.mk "AA_BB_CC".data) :=
  c5_colon_underscore_identified "AA:BB:CC".data "AA_BB_CC".data (by decide) (by decide)

/-- C6: a registration that supplies a MAC address but no name does not reach
the name-defaulting path: server.js:115 evaluates the placeholder template,
which reads the const `macAddress` declared only on the next line, so the
handler throws a ReferenceError, changes nothing and publishes no response.
The claim (and the spec) describe the clearly intended defaulting behaviour;
the code is a slip. -/
theorem c6_missing_name_crashes :
    (handleMessage 2 sampleState
        ⟨"/tenantA/devices", "reg", some (.obj [("macAddress", .str "AA:BB:CC:DD:EE:FF")])⟩).uncaught
      = some "ReferenceError: Cannot access macAddress before initialization" ∧
    (handleMessage 2 sampleState
        ⟨"/tenantA/devices", "reg", some (.obj [("macAddress", .str "AA:BB:CC:DD:EE:FF")])⟩).state
      = sampleState ∧
    publishedStatuses (handleMessage 2 sampleState
        ⟨"/tenantA/devices", "reg", some (.obj [("macAddress", .str "AA:BB:CC:DD:EE:FF")])⟩).effects
      = [] :=
  ⟨rfl, rfl, rfl⟩

/-- C9, counterexample: acknowledging the same alarm twice is not idempotent
and is not rejected: the endpoint answers ok both times and the second call
overwrites acknowledged_at (100 after the first call, 200 after the
second). -/
theorem c9_second_acknowledge_overwrites_time :
    (acknowledgeAlarm 100 alarmDb 1).2 = "ok" ∧
    (acknowledgeAlarm 200 (acknowledgeAlarm 100 alarmDb 1).1 1).2 = "ok" ∧
    (acknowledgeAlarm 100 alarmDb 1).1.alarms.map AlarmRow.acknowledged_at = [some 100] ∧
    (acknowledgeAlarm 200 (acknowledgeAlarm 100 alarmDb 1).1 1).1.alarms.map
        AlarmRow.acknowledged_at = [some 200] ∧
    (some 200 : Option ℕ) ≠ some 100 := by
  refine ⟨rfl, rfl, rfl, rfl, ?_⟩
  decide

/-- C9, amended: acknowledging an alarm twice leaves acknowledged = true but
each call unconditionally refreshes acknowledged_at to its own time, so after
the second call every row with the alarm id carries the second timestamp; the
call is answered ok, never rejected as a no-op. -/
theorem c9_acknowledge_overwrites (db : Db) (alarmId t₁ t₂ : ℕ) :
    (acknowledgeAlarm t₂ (acknowledgeAlarm t₁ db alarmId).1 alarmId).2 = "ok" ∧
    ∀ a ∈ (acknowledgeAlarm t₂ (acknowledgeAlarm t₁ db alarmId).1 alarmId).1.alarms,
      a.id = alarmId → a.acknowledged = true ∧ a.acknowledged_at = some t₂ := by
  constructor
  · rfl
  · intro a ha hid
    simp only [acknowledgeAlarm, List.map_map] at ha
    rcases List.mem_map.mp ha with ⟨c, _, hca⟩
    subst hca
    by_cases h1 : (c.id == alarmId) = true
    · simp [Function.comp, h1]
    · simp only [Function.comp, h1, if_neg, Bool.not_eq_true] at hid ⊢
      exact absurd hid (by simpa using h1)

/-- C1: registering alice's device MAC under tenant bob publishes status
reassigned and leaves the old telemetry attributed to alice, but the single
UPDATE at server.js:146 moves the existing device row to bob instead of
keeping an active=false row for alice and inserting a fresh row: after the
call tenant alice has no device row at all, contradicting the claim and the
ownership-history design documented in init.sql:79-89 and the README.  This
theorem evaluates the code at the failing input. -/
theorem c1_reassign_moves_row_instead_of_deactivating :
    (publishedStatuses (handleMessage 9 sampleState
        ⟨"/tenantB/devices", "reg",
         some (.obj [("name", .str "Moved"), ("macAddress", .str "AA:BB:CC:DD:EE:FF")])⟩).effects
      = ["reassigned"]) ∧
    ((handleMessage 9 sampleState
        ⟨"/tenantB/devices", "reg",
         some (.obj [("name", .str "Moved"), ("macAddress", .str "AA:BB:CC:DD:EE:FF")])⟩).state.db.telemetry.map
        TelemetryRow.user_uuid = ["tenantA"]) ∧
    ((handleMessage 9 sampleState
        ⟨"/tenantB/devices", "reg",
         some (.obj [("name", .str "Moved"), ("macAddress", .str "AA:BB:CC:DD:EE:FF")])⟩).state.db.devices
      = [⟨"AA_BB_CC_DD_EE_FF", "tenantB", "Moved", true⟩]) ∧
    ((handleMessage 9 sampleState
        ⟨"/tenantB/devices", "reg",
         some (.obj [("name", .str "Moved"), ("macAddress", .str "AA:BB:CC:DD:EE:FF")])⟩).state.db.devices.filter
        (fun d => d.user_uuid == "tenantA") = []) :=
  ⟨rfl, rfl, rfl, rfl⟩

/-- C2: no image acknowledgment is ever published.  On a well-formed image
message carrying a messageId the row is written, but the success
continuation at server.js:385 evaluates the unbound variable `deviceId` (a
leftover of the pre-MAC revision), throws, and the trailing catch only logs,
so zero acknowledgments (indeed zero publishes) happen; on an image message
missing imageData nothing is persisted, which matches the claim, but no
error acknowledgment is published either.  This theorem evaluates the code
at both failing inputs. -/
theorem c2_image_ack_never_published :
    ((handleMessage 4 sampleState
        ⟨"/tenantA/devices/AA_BB_CC_DD_EE_FF/images", "img",
         some (.obj [("imageId", .str "img-1"), ("messageId", .str "m-9"),
           ("imageData", .str "aGVsbG8=")])⟩).state.db.images.map ImageRow.image_id
      = ["img-1"]) ∧
    ((handleMessage 4 sampleState
        ⟨"/tenantA/devices/AA_BB_CC_DD_EE_FF/images", "img",
         some (.obj [("imageId", .str "img-1"), ("messageId", .str "m-9"),
           ("imageData", .str "aGVsbG8=")])⟩).effects.filter Effect.isMqttPublish
      = []) ∧
    ((handleMessage 4 sampleState
        ⟨"/tenantA/devices/AA_BB_CC_DD_EE_FF/images", "imgbad",
         some (.obj [("imageId", .str "img-1"), ("messageId", .str "m-9")])⟩).state.db.images
      = []) ∧
    ((handleMessage 4 sampleState
        ⟨"/tenantA/devices/AA_BB_CC_DD_EE_FF/images", "imgbad",
         some (.obj [("imageId", .str "img-1"), ("messageId", .str "m-9")])⟩).effects.filter
        Effect.isMqttPublish = []) :=
  ⟨rfl, rfl, rfl, rfl⟩

/-- C3, counterexample: a telemetry message whose value is present but not
coercible to a number is not rejected: the single reading is persisted with
value NaN (parseFloat of a non-numeric string) and a success acknowledgment
is published, where the claim demands zero persisted records and an error
acknowledgment. -/
theorem c3_noncoercible_value_stored :
    ((handleMessage 3 sampleState
        ⟨"/tenantA/devices/AA_BB_CC_DD_EE_FF/telemetry", "tb",
         some (.obj [("sensor", .str "temp"), ("value", .str "abc"),
           ("messageId", .str "m1")])⟩).state.db.telemetry.map TelemetryRow.value
      = [.num 21, .nan]) ∧
    (publishedAcks (handleMessage 3 sampleState
        ⟨"/tenantA/devices/AA_BB_CC_DD_EE_FF/telemetry", "tb",
         some (.obj [("sensor", .str "temp"), ("value", .str "abc"),
           ("messageId", .str "m1")])⟩).effects
      = [.ack (.str "m1") "success" (some 1) none 3]) :=
  ⟨rfl, rfl⟩

/-- C3, amended: a telemetry message whose payload is invalid JSON, or lacks
a truthy sensor, or has no value field at all, persists nothing (the state is
unchanged) and is rejected with a descriptive reason; when the payload parsed
and carried a truthy messageId, exactly one error acknowledgment with that
reason is published, and when the payload was not JSON no acknowledgment is
published (no messageId can be read).  A present but non-numeric value is not
rejected (see the counterexample, which shows it stored with value NaN). -/
theorem c3_invalid_telemetry_rejected
    (now : ℕ) (st : ServerState) (m : BusMessage) (p0 uuid mac : String) (u : User)
    (rest : List String)
    (hsplit : splitTopic m.topic = p0 :: uuid :: "devices" :: mac :: "telemetry" :: rest)
    (hfu : findUser st.users uuid = some u)
    (hbad : m.parsed = none ∨ ∃ data, m.parsed = some data ∧
        (jsTruthy (data.getField "sensor") = false ∨ data.getField "value" = none)) :
    (handleMessage now st m).state = st ∧
    (∀ data, m.parsed = some data → jsTruthy (data.getField "messageId") = true →
      publishedAcks (handleMessage now st m).effects =
        [.ack ((data.getField "messageId").getD Json.null) "error" none
          (some "Missing required fields: sensor and value") now]) ∧
    (m.parsed = none → publishedAcks (handleMessage now st m).effects = []) := by
  rw [handleMessage_per_device now st m p0 uuid mac "telemetry" rest hsplit]
  rcases hbad with hpn | ⟨data, hparsed, hcase⟩
  · have hst : ∀ dn, storeTelemetry now uuid mac dn m =
        ([], .error "Telemetry must be valid JSON") := by
      intro dn
      unfold storeTelemetry
      rw [hpn]
    unfold perDeviceDispatch
    rw [hfu]
    simp only [hst, hpn, beq_self_eq_true, if_true]
    refine ⟨by simp, ?_, ?_⟩
    · intro data hsome
      simp at hsome
    · intro _
      rfl
  · have hst : ∀ dn, storeTelemetry now uuid mac dn m =
        ([], .error "Missing required fields: sensor and value") := by
      intro dn
      unfold storeTelemetry
      rw [hparsed]
      rcases hcase with hs | hv
      · simp only [hs, Bool.not_false, Bool.true_or, if_true]
      · simp only [hv, Option.isNone_none, Bool.or_true, if_true]
    unfold perDeviceDispatch
    rw [hfu]
    simp only [hst, hparsed, beq_self_eq_true, if_true]
    refine ⟨by simp, ?_, ?_⟩
    · intro data' hsome hmid
      have hdd : data' = data := (Option.some.inj hsome).symm
      subst hdd
      rw [if_pos hmid]
      rfl
    · intro hpn
      simp at hpn

/-- C3, witness: the amended theorem applied to a telemetry message that
lacks the sensor field but carries a messageId. -/
theorem c3_invalid_telemetry_rejected_witness :
    (handleMessage 6 sampleState
        ⟨"/tenantA/devices/AA_BB_CC_DD_EE_FF/telemetry", "t",
         some (.obj [("value", .num 5), ("messageId", .str "m7")])⟩).state = sampleState ∧
    (∀ data, (some (.obj [("value", Json.num 5), ("messageId", Json.str "m7")]) : Option Json)
        = some data →
      jsTruthy (data.getField "messageId") = true →
      publishedAcks (handleMessage 6 sampleState
        ⟨"/tenantA/devices/AA_BB_CC_DD_EE_FF/telemetry", "t",
         some (.obj [("value", .num 5), ("messageId", .str "m7")])⟩).effects =
        [.ack ((data.getField "messageId").getD Json.null) "error" none
          (some "Missing required fields: sensor and value") 6]) ∧
    ((some (.obj [("value", Json.num 5), ("messageId", Json.str "m7")]) : Option Json) = none →
      publishedAcks (handleMessage 6 sampleState
        ⟨"/tenantA/devices/AA_BB_CC_DD_EE_FF/telemetry", "t",
         some (.obj [("value", .num 5), ("messageId", .str "m7")])⟩).effects = []) :=
  c3_invalid_telemetry_rejected 6 sampleState
    ⟨"/tenantA/devices/AA_BB_CC_DD_EE_FF/telemetry", "t",
     some (.obj [("value", .num 5), ("messageId", .str "m7")])⟩
    "" "tenantA" "AA_BB_CC_DD_EE_FF" ⟨"tenantA", "alice", [⟨"AA_BB_CC_DD_EE_FF", "Device-1"⟩]⟩ []
    (by decide) rfl
    (Or.inr ⟨.obj [("value", .num 5), ("messageId", .str "m7")], rfl, Or.inl rfl⟩)

/-- C4, counterexample: the batch entry [3, 4, 5] is not a 2-element array,
yet it is not skipped: the destructuring takes its first two elements and a
row is persisted for it, so a batch whose well-formed-pair count is 1
persists 2 records.  And a 2-element entry whose first element yields an
Invalid Date (a plain object here) is not stored and not merely skipped: its
INSERT fails and aborts the rest of the batch, so a batch holding the two
well-formed pairs [1,2] and [3,4] around it persists only the one row
written before the failure and is answered with an error acknowledgment. -/
theorem c4_long_entry_not_skipped :
    ((handleMessage 3 sampleState
        ⟨"/tenantA/devices/AA_BB_CC_DD_EE_FF/telemetry", "tb",
         some (.obj [("sensor", .str "temp"), ("isBatch", .bool true),
           ("value", .arr [.arr [.num 1, .num 2], .arr [.num 3, .num 4, .num 5]])])⟩).state.db.telemetry.map
        TelemetryRow.message
      = [Json.null, .arr [.num 1, .num 2], .arr [.num 3, .num 4, .num 5]]) ∧
    ((handleMessage 3 sampleState
        ⟨"/tenantA/devices/AA_BB_CC_DD_EE_FF/telemetry", "tb",
         some (.obj [("sensor", .str "temp"), ("isBatch", .bool true),
           ("value", .arr [.arr [.num 1, .num 2], .arr [.num 3, .num 4, .num 5]])])⟩).state.db.telemetry.length
      = sampleDb.telemetry.length + 2) ∧
    ((handleMessage 3 sampleState
        ⟨"/tenantA/devices/AA_BB_CC_DD_EE_FF/telemetry", "tb2",
         some (.obj [("sensor", .str "temp"), ("isBatch", .bool true),
           ("messageId", .str "mb"),
           ("value", .arr [.arr [.num 1, .num 2], .arr [.obj [], .num 5],
             .arr [.num 3, .num 4]])])⟩).state.db.telemetry.map TelemetryRow.message
      = [Json.null, .arr [.num 1, .num 2]]) ∧
    (publishedAcks (handleMessage 3 sampleState
        ⟨"/tenantA/devices/AA_BB_CC_DD_EE_FF/telemetry", "tb2",
         some (.obj [("sensor", .str "temp"), ("isBatch", .bool true),
           ("messageId", .str "mb"),
           ("value", .arr [.arr [.num 1, .num 2], .arr [.obj [], .num 5],
             .arr [.num 3, .num 4]])])⟩).effects
      = [.ack (.str "mb") "error" none (some pgTimestampError) 3]) :=
  ⟨rfl, rfl, rfl, rfl⟩

/-- A kept batch entry is an array of at least two elements. -/
theorem keptBatchEntry_eq_true {e : Json} (h : keptBatchEntry e = true) :
    ∃ xs : List Json, e = Json.arr xs ∧ 2 ≤ xs.length := by
  cases e with
  | arr xs =>
    refine ⟨xs, rfl, ?_⟩
    simp [keptBatchEntry] at h
    omega
  | null => simp [keptBatchEntry] at h
  | bool b => simp [keptBatchEntry] at h
  | num q => simp [keptBatchEntry] at h
  | str s => simp [keptBatchEntry] at h
  | obj fs => simp [keptBatchEntry] at h

/-- An entry the keep-condition rejects makes the loop body continue. -/
theorem batchEntryStep_skip_of_not_kept (a b c d : String) (unit mid : Option Json)
    (e : Json) (h : keptBatchEntry e = false) :
    batchEntryStep a b c d unit mid e = .skip := by
  cases e with
  | arr xs =>
    simp [keptBatchEntry] at h
    simp [batchEntryStep, h]
  | null => rfl
  | bool b' => rfl
  | num q => rfl
  | str s => rfl
  | obj fs => rfl

/-- Timestamps that are certainly invalid are invalid in the model too. -/
theorem jsNewDateValid_eq_false_of_certainlyInvalid {j : Json}
    (h : certainlyInvalidDate j = true) : jsNewDateValid j = false := by
  cases j with
  | obj fs => rfl
  | num q =>
    have h' : q < -maxJsTime ∨ maxJsTime < q := by
      simpa [certainlyInvalidDate] using h
    simp only [jsNewDateValid, Bool.and_eq_false_iff, decide_eq_false_iff_not]
    rcases h' with h' | h'
    · exact Or.inl (by linarith)
    · exact Or.inr (by linarith)
  | null => simp [certainlyInvalidDate] at h
  | bool b => simp [certainlyInvalidDate] at h
  | str s => simp [certainlyInvalidDate] at h
  | arr xs => simp [certainlyInvalidDate] at h

/-- When every kept entry of a batch carries a timestamp the model accepts,
the loop never aborts: it writes one row per kept entry, each stamped with
that entry's own first element and carrying its second as the reading. -/
theorem runBatchLoop_all_valid (a b c d : String) (unit mid : Option Json)
    (entries : List Json)
    (hval : ∀ es : List Json, Json.arr es ∈ entries → 2 ≤ es.length →
      jsNewDateValid (es.getD 0 Json.null) = true) :
    ∃ rows : List TelemetryRow,
      runBatchLoop a b c d unit mid entries = (rows, none) ∧
      rows.length = entries.countP keptBatchEntry ∧
      ∀ row ∈ rows, ∃ es : List Json, Json.arr es ∈ entries ∧ 2 ≤ es.length ∧
        row.timestamp = .fromJson (es.getD 0 Json.null) ∧
        row.value = coerceNumber (es.getD 1 Json.null) := by
  induction entries with
  | nil =>
    refine ⟨[], rfl, rfl, ?_⟩
    intro row h
    simp at h
  | cons e es ih =>
    have hvtail : ∀ es' : List Json, Json.arr es' ∈ es → 2 ≤ es'.length →
        jsNewDateValid (es'.getD 0 Json.null) = true :=
      fun es' h hl => hval es' (List.mem_cons_of_mem _ h) hl
    obtain ⟨rows, hrun, hlen, hmem⟩ := ih hvtail
    by_cases hk : keptBatchEntry e = true
    · obtain ⟨xs, rfl, h2⟩ := keptBatchEntry_eq_true hk
      have hvx := hval xs (List.mem_cons_self _ _) h2
      have hvx2 : jsNewDateValid (xs[0]?.getD Json.null) = true := by
        simpa [List.getD, List.get?_eq_getElem?] using hvx
      have hl : ¬ xs.length < 2 := by omega
      have hstep : batchEntryStep a b c d unit mid (Json.arr xs) = .insert
          { user_uuid := a, device_mac_address := b, device_name := c, sensor_name := d,
            message := Json.arr xs, value := coerceNumber (xs.getD 1 Json.null),
            unit := unit, timestamp := .fromJson (xs.getD 0 Json.null),
            message_id := mid } := by
        simp [batchEntryStep, hl, hvx, hvx2]
      refine ⟨(
        ({ user_uuid := a, device_mac_address := b, device_name := c,
           sensor_name := d, message := Json.arr xs,
           value := coerceNumber (xs.getD 1 Json.null), unit := unit,
           timestamp := .fromJson (xs.getD 0 Json.null),
           message_id := mid } : TelemetryRow) :: rows), ?_, ?_, ?_⟩
      · simp only [runBatchLoop, hstep, hrun]
      · simp [List.countP_cons, hk, hlen]
      · intro row hr
        rcases List.mem_cons.mp hr with h | h
        · subst h
          exact ⟨xs, List.mem_cons_self _ _, h2, rfl, rfl⟩
        · obtain ⟨es', hm, h2', ht, hv⟩ := hmem row h
          exact ⟨es', List.mem_cons_of_mem _ hm, h2', ht, hv⟩
    · have hk' : keptBatchEntry e = false := by simpa using hk
      have hstep := batchEntryStep_skip_of_not_kept a b c d unit mid e hk'
      refine ⟨rows, ?_, ?_, ?_⟩
      · simp only [runBatchLoop, hstep, hrun]
      · simp [List.countP_cons, hk', hlen]
      · intro row hr
        obtain ⟨es', hm, h2', ht, hv⟩ := hmem row hr
        exact ⟨es', List.mem_cons_of_mem _ hm, h2', ht, hv⟩

/-- A kept entry whose timestamp the model rejects aborts the loop: the rows
already written (one per kept entry before it) remain, the rest of the batch
is not processed, and the loop surfaces the database error. -/
theorem runBatchLoop_abort (a b c d : String) (unit mid : Option Json)
    (pre post es : List Json)
    (hpre : ∀ es' : List Json, Json.arr es' ∈ pre → 2 ≤ es'.length →
      jsNewDateValid (es'.getD 0 Json.null) = true)
    (hlen : 2 ≤ es.length)
    (hbad : jsNewDateValid (es.getD 0 Json.null) = false) :
    ∃ rows : List TelemetryRow,
      runBatchLoop a b c d unit mid (pre ++ Json.arr es :: post)
        = (rows, some pgTimestampError) ∧
      rows.length = pre.countP keptBatchEntry := by
  induction pre with
  | nil =>
    have hl : ¬ es.length < 2 := by omega
    have hbad2 : jsNewDateValid (es[0]?.getD Json.null) = false := by
      simpa [List.getD, List.get?_eq_getElem?] using hbad
    have hstep : batchEntryStep a b c d unit mid (Json.arr es) = .fail pgTimestampError := by
      simp [batchEntryStep, hl, hbad, hbad2]
    refine ⟨[], ?_, rfl⟩
    simp only [List.nil_append, runBatchLoop, hstep]
  | cons e pre' ih =>
    have hpretail : ∀ es' : List Json, Json.arr es' ∈ pre' → 2 ≤ es'.length →
        jsNewDateValid (es'.getD 0 Json.null) = true :=
      fun es' h hl => hpre es' (List.mem_cons_of_mem _ h) hl
    obtain ⟨rows, hrun, hlen'⟩ := ih hpretail
    by_cases hk : keptBatchEntry e = true
    · obtain ⟨xs, rfl, h2⟩ := keptBatchEntry_eq_true hk
      have hvx := hpre xs (List.mem_cons_self _ _) h2
      have hvx2 : jsNewDateValid (xs[0]?.getD Json.null) = true := by
        simpa [List.getD, List.get?_eq_getElem?] using hvx
      have hl : ¬ xs.length < 2 := by omega
      have hstep : batchEntryStep a b c d unit mid (Json.arr xs) = .insert
          { user_uuid := a, device_mac_address := b, device_name := c, sensor_name := d,
            message := Json.arr xs, value := coerceNumber (xs.getD 1 Json.null),
            unit := unit, timestamp := .fromJson (xs.getD 0 Json.null),
            message_id := mid } := by
        simp [batchEntryStep, hl, hvx, hvx2]
      refine ⟨(
        ({ user_uuid := a, device_mac_address := b, device_name := c,
           sensor_name := d, message := Json.arr xs,
           value := coerceNumber (xs.getD 1 Json.null), unit := unit,
           timestamp := .fromJson (xs.getD 0 Json.null),
           message_id := mid } : TelemetryRow) :: rows), ?_, ?_⟩
      · rw [List.cons_append]
        simp only [runBatchLoop, hstep, hrun]
      · simp [List.countP_cons, hk, hlen']
    · have hk' : keptBatchEntry e = false := by simpa using hk
      have hstep := batchEntryStep_skip_of_not_kept a b c d unit mid e hk'
      refine ⟨rows, ?_, ?_⟩
      · rw [List.cons_append]
        simp only [runBatchLoop, hstep, hrun]
      · simp [List.countP_cons, hk', hlen']

/-- C4, amended: in a batch, the entries skipped are exactly those that are
not arrays of at least two elements — arrays of more than two elements are
not skipped but processed through their first two elements — and skipping
never aborts the batch.  When every kept entry carries a usable timestamp
(a number in the Date range, or an ISO date-time string), each yields one
row stamped with its own first element and exactly
(count of kept entries) rows are persisted — N for N well-formed pairs.
But a kept entry whose first element yields an Invalid Date (certainly so
for a plain object or an out-of-range number) makes its INSERT fail and
aborts the rest of the batch: the rows written before it remain, nothing
after it is stored, and storeTelemetry surfaces the database error (which
the message handler reports in an error acknowledgment when a messageId was
carried). -/
theorem c4_batch_rows (now : ℕ) (userUuid mac deviceName : String)
    (m : BusMessage) (data : Json) (entries : List Json)
    (hparsed : m.parsed = some data)
    (hsensor : jsTruthy (data.getField "sensor") = true)
    (hvalue : data.getField "value" = some (.arr entries))
    (hbatch : jsTruthy (data.getField "isBatch") = true) :
    ((∀ es : List Json, Json.arr es ∈ entries → 2 ≤ es.length →
        jsNewDateValid (es.getD 0 Json.null) = true) →
      ∃ rows : List TelemetryRow,
        storeTelemetry now userUuid mac deviceName m =
          (rows, .ok (orNull (data.getField "messageId"), some entries.length)) ∧
        rows.length = entries.countP keptBatchEntry ∧
        (∀ row ∈ rows, ∃ es : List Json, Json.arr es ∈ entries ∧ 2 ≤ es.length ∧
          row.timestamp = .fromJson (es.getD 0 Json.null) ∧
          row.value = coerceNumber (es.getD 1 Json.null)) ∧
        ((∀ e ∈ entries, keptBatchEntry e = true) → rows.length = entries.length)) ∧
    (∀ pre post es : List Json,
      entries = pre ++ Json.arr es :: post → 2 ≤ es.length →
      certainlyInvalidDate (es.getD 0 Json.null) = true →
      (∀ es' : List Json, Json.arr es' ∈ pre → 2 ≤ es'.length →
        jsNewDateValid (es'.getD 0 Json.null) = true) →
      ∃ rows : List TelemetryRow,
        storeTelemetry now userUuid mac deviceName m = (rows, .error pgTimestampError) ∧
        rows.length = pre.countP keptBatchEntry) := by
  have hvn : (data.getField "value").isNone = false := by rw [hvalue]; rfl
  have hred : storeTelemetry now userUuid mac deviceName m =
      (match runBatchLoop userUuid mac deviceName
          ((data.getField "sensor").getD Json.null).toJsString
          (orNull (data.getField "unit")) (orNull (data.getField "messageId")) entries with
        | (rows, none) => (rows, .ok (orNull (data.getField "messageId"), some entries.length))
        | (rows, some err) => (rows, .error err)) := by
    unfold storeTelemetry
    rw [hparsed]
    simp only [hsensor, hvn, Bool.not_true, Bool.or_false, Bool.false_eq_true, if_false,
      hbatch, hvalue, Option.getD_some, Option.isNone_some]
  constructor
  · intro hval
    obtain ⟨rows, hrun, hlen, hmem⟩ := runBatchLoop_all_valid userUuid mac deviceName
      ((data.getField "sensor").getD Json.null).toJsString
      (orNull (data.getField "unit")) (orNull (data.getField "messageId")) entries hval
    refine ⟨rows, ?_, hlen, hmem, ?_⟩
    · rw [hred, hrun]
    · intro hall
      rw [hlen]
      exact List.countP_eq_length.mpr hall
  · intro pre post es hent h2 hcert hpre
    have hbadv := jsNewDateValid_eq_false_of_certainlyInvalid hcert
    obtain ⟨rows, hrun, hlen⟩ := runBatchLoop_abort userUuid mac deviceName
      ((data.getField "sensor").getD Json.null).toJsString
      (orNull (data.getField "unit")) (orNull (data.getField "messageId"))
      pre post es hpre h2 hbadv
    refine ⟨rows, ?_, hlen⟩
    rw [hred, hent, hrun]

/-- C4, witness: the amended theorem applied to a two-pair batch, reading
off the all-valid half with both conjuncts instantiated. -/
theorem c4_batch_rows_witness :
    ∃ rows : List TelemetryRow,
      storeTelemetry 3 "tenantA" "AA_BB_CC_DD_EE_FF" "Device-1"
          ⟨"tb", "tb",
           some (.obj [("sensor", .str "temp"), ("isBatch", .bool true),
             ("value", .arr [.arr [.num 1, .num 2], .arr [.num 3, .num 4]])])⟩ =
        (rows,
         .ok (orNull ((Json.obj [("sensor", .str "temp"), ("isBatch", .bool true),
            ("value", .arr [.arr [.num 1, .num 2],
              .arr [.num 3, .num 4]])]).getField "messageId"),
          some ([Json.arr [.num 1, .num 2], .arr [.num 3, .num 4]] : List Json).length)) ∧
      rows.length = ([Json.arr [.num 1, .num 2], .arr [.num 3, .num 4]] : List Json).countP
        keptBatchEntry ∧
      (∀ row ∈ rows, ∃ es : List Json,
        Json.arr es ∈ ([Json.arr [.num 1, .num 2], .arr [.num 3, .num 4]] : List Json) ∧
        2 ≤ es.length ∧
        row.timestamp = .fromJson (es.getD 0 Json.null) ∧
        row.value = coerceNumber (es.getD 1 Json.null)) ∧
      ((∀ e ∈ ([Json.arr [.num 1, .num 2], .arr [.num 3, .num 4]] : List Json),
          keptBatchEntry e = true) →
        rows.length = ([Json.arr [.num 1, .num 2], .arr [.num 3, .num 4]] : List Json).length) :=
  (c4_batch_rows 3 "tenantA" "AA_BB_CC_DD_EE_FF" "Device-1"
    ⟨"tb", "tb",
     some (.obj [("sensor", .str "temp"), ("isBatch", .bool true),
       ("value", .arr [.arr [.num 1, .num 2], .arr [.num 3, .num 4]])])⟩
    (.obj [("sensor", .str "temp"), ("isBatch", .bool true),
      ("value", .arr [.arr [.num 1, .num 2], .arr [.num 3, .num 4]])])
    [.arr [.num 1, .num 2], .arr [.num 3, .num 4]]
    rfl rfl rfl rfl).1 (by
      intro es h h2
      simp only [List.mem_cons, List.not_mem_nil, or_false, Json.arr.injEq] at h
      rcases h with h | h <;> subst h <;> decide)

/-- C7, counterexample: a per-device message for an unknown tenant is
dropped, but silently: the handler returns at server.js:285 without logging
any warning, where the claim says every malformed-topic message is dropped
with a logged warning. -/
theorem c7_unknown_tenant_dropped_without_warning :
    topicMalformed sampleState.users "/t9/devices/AA/telemetry" = true ∧
    (handleMessage 1 sampleState ⟨"/t9/devices/AA/telemetry", "x", none⟩).state = sampleState ∧
    (handleMessage 1 sampleState ⟨"/t9/devices/AA/telemetry", "x", none⟩).effects.filter
        Effect.isLogWarn = [] :=
  ⟨rfl, rfl, rfl⟩

/-- C8, counterexample: registering a fresh (tenant, MAC, name) triple twice
does not yield status unchanged both times: the first registration publishes
status created (the second does publish unchanged). -/
theorem c8_first_registration_not_unchanged :
    (publishedStatuses (handleMessage 1 freshState
        ⟨"/tenantC/devices", "r",
         some (.obj [("name", .str "dev"), ("macAddress", .str "00:11:22:33:44:55")])⟩).effects
      = ["created"]) ∧
    (publishedStatuses (handleMessage 2 (handleMessage 1 freshState
        ⟨"/tenantC/devices", "r",
         some (.obj [("name", .str "dev"), ("macAddress", .str "00:11:22:33:44:55")])⟩).state
        ⟨"/tenantC/devices", "r",
         some (.obj [("name", .str "dev"), ("macAddress", .str "00:11:22:33:44:55")])⟩).effects
      = ["unchanged"]) ∧
    ("created" : String) ≠ "unchanged" := by
  refine ⟨rfl, rfl, ?_⟩
  decide

/-- C7, amended: every message on a malformed topic (too few segments, a
shape other than the two devices forms, an unknown tenant, or an unknown
class) is dropped with no further action: the state (hence every table) is
unchanged, nothing is published or emitted or written, and the handler does
not throw.  A warning is logged only on the registration form with an
unknown tenant; other malformed topics are dropped silently. -/
theorem c7_malformed_topic_dropped (now : ℕ) (st : ServerState) (m : BusMessage)
    (h : topicMalformed st.users m.topic = true) :
    (handleMessage now st m).state = st ∧
    (handleMessage now st m).uncaught = none ∧
    ∀ e ∈ (handleMessage now st m).effects, e.isLogOnly = true := by
  unfold topicMalformed at h
  unfold handleMessage
  by_cases h3 : ((splitTopic m.topic).length == 3 &&
      (splitTopic m.topic).getD 2 "" == "devices") = true
  · rw [if_pos h3] at h
    simp only [h3, if_true]
    have hkf : knownTenant st.users ((splitTopic m.topic).getD 1 "") = false := by
      simpa using h
    have hnone : findUser st.users ((splitTopic m.topic).getD 1 "") = none := by
      unfold knownTenant at hkf
      rw [← Option.not_isSome_iff_eq_none]
      simp only [hkf]
      simp
    simp only [handleRegistration, hnone]
    refine ⟨by trivial, by trivial, ?_⟩
    intro e he
    rcases List.mem_cons.mp he with h1 | h1
    · subst h1; rfl
    · rcases List.mem_singleton.mp h1 with rfl; rfl
  · rw [if_neg h3] at h
    simp only [h3, Bool.false_eq_true, if_false]
    by_cases h5 : (hasAtLeastFive (splitTopic m.topic) &&
        (splitTopic m.topic).getD 2 "" == "devices") = true
    · rw [if_pos h5] at h
      simp only [h5, if_true]
      unfold perDeviceDispatch
      cases hfu : findUser st.users ((splitTopic m.topic).getD 1 "") with
      | none =>
        simp only [hfu]
        refine ⟨by trivial, by trivial, ?_⟩
        intro e he
        rcases List.mem_singleton.mp he with rfl; rfl
      | some u =>
        have hknown : knownTenant st.users ((splitTopic m.topic).getD 1 "") = true := by
          unfold knownTenant
          rw [hfu]
          rfl
        rw [hknown] at h
        simp only [Bool.not_true, Bool.false_or, Bool.not_eq_true',
          Bool.or_eq_false_iff] at h
        simp only [hfu, h.1.1.1, h.1.1.2, h.1.2, Bool.false_eq_true, if_false]
        refine ⟨by trivial, by trivial, ?_⟩
        intro e he
        rcases List.mem_singleton.mp he with rfl; rfl
    · rw [if_neg h5] at h
      simp only [h5, Bool.false_eq_true, if_false]
      refine ⟨by trivial, by trivial, ?_⟩
      intro e he
      rcases List.mem_singleton.mp he with rfl; rfl

/-- C7, witness: the amended theorem applied to a message whose topic names
an unknown tenant. -/
theorem c7_malformed_topic_dropped_witness :
    (handleMessage 1 sampleState ⟨"/t9/devices/AA/alarms", "y", none⟩).state = sampleState ∧
    (handleMessage 1 sampleState ⟨"/t9/devices/AA/alarms", "y", none⟩).uncaught = none ∧
    ∀ e ∈ (handleMessage 1 sampleState ⟨"/t9/devices/AA/alarms", "y", none⟩).effects,
      e.isLogOnly = true :=
  c7_malformed_topic_dropped 1 sampleState ⟨"/t9/devices/AA/alarms", "y", none⟩ (by decide)

/-- C8, amended: registering a (tenant, MAC, name) triple twice yields
`created` for the first call when nobody owns the MAC, and `unchanged` for
the second; exactly one device row is inserted by the pair of calls, and the
second registration leaves the stored state entirely unchanged. -/
theorem c8_second_registration_noop
    (now₁ now₂ : ℕ) (st : ServerState) (m : BusMessage)
    (p0 uuid mac name : String) (u : User)
    (hsplit : splitTopic m.topic = [p0, uuid, "devices"])
    (hparsed : m.parsed = some (.obj [("name", Json.str name), ("macAddress", Json.str mac)]))
    (hname : name ≠ "") (hmac : mac ≠ "")
    (hu : findUser st.users uuid = some u)
    (hfresh : ∀ v ∈ st.users, ∀ d ∈ v.devices, d.macAddress ≠ normalizeMac mac) :
    publishedStatuses (handleMessage now₁ st m).effects = ["created"] ∧
    (handleMessage now₁ st m).state.db.devices
      = st.db.devices ++ [⟨normalizeMac mac, uuid, name, true⟩] ∧
    publishedStatuses (handleMessage now₂ (handleMessage now₁ st m).state m).effects
      = ["unchanged"] ∧
    (handleMessage now₂ (handleMessage now₁ st m).state m).state
      = (handleMessage now₁ st m).state := by
  have hbn : (name != "") = true := bne_iff_ne.mpr hname
  have hbm : (mac != "") = true := bne_iff_ne.mpr hmac
  have hgn : (Json.obj [("name", Json.str name), ("macAddress", Json.str mac)]).getField "name"
      = some (Json.str name) := rfl
  have hgm : (Json.obj [("name", Json.str name),
      ("macAddress", Json.str mac)]).getField "macAddress" = some (Json.str mac) := rfl
  have hfd := findDeviceAnyUser_eq_none st.users (normalizeMac mac) hfresh
  have e1 : handleRegistration now₁ st uuid m =
      ⟨⟨updateUser st.users uuid
          (fun v => { v with devices := v.devices ++ [⟨normalizeMac mac, name⟩] }),
        { st.db with devices := st.db.devices ++ [⟨normalizeMac mac, uuid, name, true⟩] }⟩,
       [.logInfo ("[DEVICE-REGISTER] Created new device: " ++ name ++ " (" ++
          normalizeMac mac ++ ") for user " ++ u.username),
        registerResponseEffect uuid name (normalizeMac mac) "created" none now₁,
        .socketEmit uuid "device-registered" (normalizeMac mac) name],
       none⟩ := by
    unfold handleRegistration
    rw [hu, hparsed]
    simp only [hgn, hgm, jsTruthy, Json.truthy, hbn, hbm, Bool.not_true, Bool.false_eq_true,
      if_false, Option.getD, Json.toJsString]
    rw [hfd]
  have hfu2 : findUser (updateUser st.users uuid
      (fun v => { v with devices := v.devices ++ [⟨normalizeMac mac, name⟩] })) uuid
      = some { u with devices := u.devices ++ [⟨normalizeMac mac, name⟩] } := by
    rw [findUser_updateUser st.users uuid
      (fun v => { v with devices := v.devices ++ [⟨normalizeMac mac, name⟩] })
      (fun v => rfl), hu]
    rfl
  have hfd2 : findDeviceAnyUser (updateUser st.users uuid
        (fun v => { v with devices := v.devices ++ [⟨normalizeMac mac, name⟩] }))
        (normalizeMac mac)
      = some ({ u with devices := u.devices ++ [⟨normalizeMac mac, name⟩] },
          ⟨normalizeMac mac, name⟩) :=
    findDeviceAnyUser_updateUser_append st.users uuid u ⟨normalizeMac mac, name⟩ hu hfresh
  have huu : u.uuid = uuid := findUser_uuid st.users uuid u hu
  have e2 : handleRegistration now₂
      ⟨updateUser st.users uuid
          (fun v => { v with devices := v.devices ++ [⟨normalizeMac mac, name⟩] }),
        { st.db with devices := st.db.devices ++ [⟨normalizeMac mac, uuid, name, true⟩] }⟩
      uuid m =
      ⟨⟨updateUser st.users uuid
          (fun v => { v with devices := v.devices ++ [⟨normalizeMac mac, name⟩] }),
        { st.db with devices := st.db.devices ++ [⟨normalizeMac mac, uuid, name, true⟩] }⟩,
       [.logInfo ("[DEVICE-REGISTER] Device " ++ name ++ " (" ++ normalizeMac mac ++
          ") already exists for user " ++ u.username ++ " with same name - no changes needed"),
        registerResponseEffect uuid name (normalizeMac mac) "unchanged" none now₂],
       none⟩ := by
    unfold handleRegistration
    rw [hfu2, hparsed]
    simp only [hgn, hgm, jsTruthy, Json.truthy, hbn, hbm, Bool.not_true, Bool.false_eq_true,
      if_false, Option.getD, Json.toJsString]
    rw [hfd2]
    simp only [huu, bne_self_eq_false, Bool.false_eq_true, if_false]
  rw [handleMessage_registration_topic now₁ st m p0 uuid hsplit, e1,
    handleMessage_registration_topic now₂ _ m p0 uuid hsplit, e2]
  refine ⟨?_, ?_, ?_, ?_⟩
  · simp [publishedStatuses, registerResponseEffect]
  · rfl
  · simp [publishedStatuses, registerResponseEffect]
  · rfl

/-- C8, witness: the amended theorem applied to the carol fixture with a
fresh MAC. -/
theorem c8_second_registration_noop_witness :
    publishedStatuses (handleMessage 1 freshState
        ⟨"/tenantC/devices", "r",
         some (.obj [("name", Json.str "dev"), ("macAddress", Json.str "00:11")])⟩).effects
      = ["created"] ∧
    (handleMessage 1 freshState
        ⟨"/tenantC/devices", "r",
         some (.obj [("name", Json.str "dev"), ("macAddress", Json.str "00:11")])⟩).state.db.devices
      = freshState.db.devices ++ [⟨normalizeMac "00:11", "tenantC", "dev", true⟩] ∧
    publishedStatuses (handleMessage 2 (handleMessage 1 freshState
        ⟨"/tenantC/devices", "r",
         some (.obj [("name", Json.str "dev"), ("macAddress", Json.str "00:11")])⟩).state
        ⟨"/tenantC/devices", "r",
         some (.obj [("name", Json.str "dev"), ("macAddress", Json.str "00:11")])⟩).effects
      = ["unchanged"] ∧
    (handleMessage 2 (handleMessage 1 freshState
        ⟨"/tenantC/devices", "r",
         some (.obj [("name", Json.str "dev"), ("macAddress", Json.str "00:11")])⟩).state
        ⟨"/tenantC/devices", "r",
         some (.obj [("name", Json.str "dev"), ("macAddress", Json.str "00:11")])⟩).state
      = (handleMessage 1 freshState
        ⟨"/tenantC/devices", "r",
         some (.obj [("name", Json.str "dev"), ("macAddress", Json.str "00:11")])⟩).state :=
  c8_second_registration_noop 1 2 freshState
    ⟨"/tenantC/devices", "r",
     some (.obj [("name", Json.str "dev"), ("macAddress", Json.str "00:11")])⟩
    "" "tenantC" "00:11" "dev" ⟨"tenantC", "carol", []⟩
    (by decide) rfl (by decide) (by decide) rfl (by decide)

/-- C9, witness: the amended theorem applied to the one-alarm fixture after
acknowledging at 100 and again at 200. -/
theorem c9_acknowledge_overwrites_witness :
    ({ id := 1, user_uuid := "tenantA", device_mac_address := "AA_BB_CC_DD_EE_FF",
       device_name := "Device-1", severity := "critical", message := "overheat",
       acknowledged := true, acknowledged_at := some 200, timestamp := 5 } : AlarmRow).acknowledged
        = true ∧
    ({ id := 1, user_uuid := "tenantA", device_mac_address := "AA_BB_CC_DD_EE_FF",
       device_name := "Device-1", severity := "critical", message := "overheat",
       acknowledged := true, acknowledged_at := some 200, timestamp := 5 } : AlarmRow).acknowledged_at
        = some 200 :=
  (c9_acknowledge_overwrites alarmDb 1 100 200).2 _ (by decide) rfl

end MqttIot
